import Mathlib

/-!
Verification of the Python-AST unparser (ast.rs and visitors/printer.rs).

The data model mirrors `src/ast.rs` and the rendering functions mirror
`src/visitors/printer.rs`.  Rust panics (`unimplemented!()` and a failed
`assert!`) are modelled by the `Except RenderErr` monad: `.error .unimplemented`
stands for the unsupported-construct panic and `.error .assertionFailed` for a
failed assertion.  Machine strings are Lean `String`s; `usize` counts are `Nat`;
`i64` is `Int`.  Generic Rust types applied at a single instantiation
(`Argument<Expression>`, `Argument<(Name, Expression)>`) are monomorphised into
`ArgumentE` and `ArgumentKW` because Lean mutual inductives cannot mix
parameters with the expression family.
-/

set_option linter.dupNamespace false

/-- Failure modes of the renderer: `unimplemented` models the Rust
`unimplemented!()` panic (unsupported-construct fault), `assertionFailed`
models a failed `assert!`. -/
inductive RenderErr where
| unimplemented
| assertionFailed
deriving DecidableEq

/-- Mirrors `ArgumentError` from ast.rs. -/
inductive ArgumentError where
| KeywordExpression
| PositionalAfterKeyword
| StarargsAfterKeyword
deriving DecidableEq

/-- Mirrors `ArgumentError::to_string` from ast.rs. -/
def ArgumentError.to_string : ArgumentError → String
| .KeywordExpression => "Keyword cannot be an expression."
| .PositionalAfterKeyword => "Positional argument after keyword argument or **kwargs."
| .StarargsAfterKeyword => "*args after keyword argument or **kwargs."

/-- Mirrors `impl From<ArgumentError> for u32` from ast.rs. -/
def argument_error_to_u32 : ArgumentError → Nat
| .KeywordExpression => 1
| .PositionalAfterKeyword => 2
| .StarargsAfterKeyword => 3

/-- Mirrors `impl From<u32> for ArgumentError` from ast.rs.  The match on the
integer literals 1, 2, 3 is written as the equivalent chain of equality tests;
the `panic!("Invalid error code.")` of the wildcard arm is modelled by `none`. -/
def u32_to_argument_error (i : Nat) : Option ArgumentError :=
  if i = 1 then some .KeywordExpression
  else if i = 2 then some .PositionalAfterKeyword
  else if i = 3 then some .StarargsAfterKeyword
  else none

abbrev Name := String

/-- Mirrors `StarParams<T>` from ast.rs. -/
inductive StarParams (T : Type) where
| No
| Anonymous
| Named (t : T)

/-- Mirrors `AugAssignOp` from ast.rs. -/
inductive AugAssignOp where
| Add
| Sub
| Mult
| MatMult
| Div
| Mod
| BitAnd
| BitOr
| BitXor
| Lshift
| Rshift
| Power
| Floordiv

/-- Mirrors `Uop` from ast.rs. -/
inductive Uop where
| Plus
| Minus
| Invert
| Not

/-- Mirrors `Bop` from ast.rs. -/
inductive Bop where
| Add
| Sub
| Mult
| Matmult
| Mod
| Floordiv
| Div
| Power
| Lshift
| Rshift
| BitAnd
| BitXor
| BitOr
| Lt
| Gt
| Eq
| Leq
| Geq
| Neq
| In
| NotIn
| Is
| IsNot
| And
| Or

mutual

/-- Mirrors `Expression` from ast.rs.  `Vec<u8>` byte-string payloads are
`List Nat` and `f64` payloads are `Float`; neither payload is ever rendered
(those variants hit the `unimplemented!()` arm of the printer). -/
inductive Expression where
| Ellipsis
| None
| True
| False
| Name (n : Name)
| Int (i : Int)
| Complex (real : Float) (imaginary : Float)
| Float (f : Float)
| String (s : String)
| Bytes (b : List Nat)
| DictLiteral (v : List DictItem)
| SetLiteral (v : List SetItem)
| ListLiteral (v : List SetItem)
| TupleLiteral (v : List SetItem)
| DictComp (item : DictItem) (comp : List ComprehensionChunk)
| SetComp (item : SetItem) (comp : List ComprehensionChunk)
| ListComp (item : SetItem) (comp : List ComprehensionChunk)
| Generator (item : SetItem) (comp : List ComprehensionChunk)
| Call (f : Expression) (args : Arglist)
| Subscript (e : Expression) (sub : List Subscript)
| Attribute (e : Expression) (n : Name)
| Uop (op : Uop) (e : Expression)
| Bop (op : Bop) (e1 : Expression) (e2 : Expression)
| Ternary (e1 : Expression) (e2 : Expression) (e3 : Expression)
| Yield (es : List Expression)
| YieldFrom (e : Expression)
| Star (e : Expression)
| Lambdef (params : UntypedArgsList) (body : Expression)

/-- Mirrors `DictItem` from ast.rs. -/
inductive DictItem where
| Star (e : Expression)
| Unique (k : Expression) (v : Expression)

/-- Mirrors `SetItem` from ast.rs. -/
inductive SetItem where
| Star (e : Expression)
| Unique (e : Expression)

/-- Mirrors `ComprehensionChunk` from ast.rs (the Rust field `async` is kept
as a constructor argument named `async`). -/
inductive ComprehensionChunk where
| If (cond : Expression)
| For (async : Bool) (item : List Expression) (iterator : Expression)

/-- Mirrors `Subscript` from ast.rs. -/
inductive Subscript where
| Simple (e : Expression)
| Double (e1 : Option Expression) (e2 : Option Expression)
| Triple (e1 : Option Expression) (e2 : Option Expression) (e3 : Option Expression)

/-- Mirrors `Argument<Expression>` from ast.rs. -/
inductive ArgumentE where
| Normal (e : Expression)
| Star (e : Expression)

/-- Mirrors `Argument<(Name, Expression)>` from ast.rs. -/
inductive ArgumentKW where
| Normal (n : Name) (e : Expression)
| Star (e : Expression)

/-- Mirrors `Arglist` from ast.rs (single-constructor inductive so it can sit
in the mutual block; the constructor arguments are the two record fields). -/
inductive Arglist where
| mk (positional_args : List ArgumentE) (keyword_args : List ArgumentKW)

/-- Mirrors `UntypedArgsList` from ast.rs. -/
inductive UntypedArgsList where
| mk (positional_args : List (Name × Option Expression)) (star_args : StarParams Name)
     (keyword_args : List (Name × Option Expression)) (star_kwargs : Option Name)

end

/-- Mirrors `TypedArgsList` from ast.rs. -/
structure TypedArgsList where
  positional_args : List (Name × Option Expression × Option Expression)
  star_args : StarParams (Name × Option Expression)
  keyword_args : List (Name × Option Expression × Option Expression)
  star_kwargs : Option (Name × Option Expression)

/-- Mirrors `Decorator` from ast.rs. -/
structure Decorator where
  name : List Name
  args : Option Arglist

/-- Mirrors `Import` from ast.rs. -/
inductive Import where
| ImportFrom (leading_dots : Nat) (path : List Name) (names : List (Name × Option Name))
| Import (names : List (List Name × Option Name))

mutual

/-- Mirrors `Statement` from ast.rs. -/
inductive Statement where
| Pass
| Del (names : List Name)
| Break
| Continue
| Return (exprs : List Expression)
| RaiseExcFrom (exc : Expression) (from_exc : Expression)
| RaiseExc (exc : Expression)
| Raise
| Global (names : List Name)
| Nonlocal (names : List Name)
| Assert (expr : Expression) (msg : Option Expression)
| Import (imp : Import)
| Expressions (exprs : List Expression)
| Assignment (lhs : List Expression) (rhs : List (List Expression))
| TypedAssignment (lhs : List Expression) (typed : Expression) (rhs : List Expression)
| AugmentedAssignment (lhs : List Expression) (op : AugAssignOp) (rhs : List Expression)
| Compound (c : CompoundStatement)

/-- Mirrors `CompoundStatement` from ast.rs. -/
inductive CompoundStatement where
| If (cond_blocks : List (Expression × List Statement)) (else_block : Option (List Statement))
| For (async : Bool) (item : List Expression) (iterator : List Expression)
      (for_block : List Statement) (else_block : Option (List Statement))
| While (cond : Expression) (block : List Statement) (else_block : Option (List Statement))
| With (contexts : List (Expression × Option Expression)) (block : List Statement)
| Funcdef (fd : Funcdef)
| Classdef (cd : Classdef)
| Try (t : Try)

/-- Mirrors `Funcdef` from ast.rs (single-constructor inductive; arguments are
the record fields in source order). -/
inductive Funcdef where
| mk (async : Bool) (decorators : List Decorator) (name : String)
     (parameters : TypedArgsList) (return_type : Option Expression) (code : List Statement)

/-- Mirrors `Classdef` from ast.rs. -/
inductive Classdef where
| mk (decorators : List Decorator) (name : String) (parameters : Arglist)
     (code : List Statement)

/-- Mirrors `Try` from ast.rs. -/
inductive Try where
| mk (try_block : List Statement)
     (except_clauses : List (Expression × Option Name × List Statement))
     (last_except : List Statement) (else_block : List Statement)
     (finally_block : List Statement)

end

/-- Mirrors `comma_join` from printer.rs: first item (or the empty string),
then each following item preceded by a comma and a space. -/
def comma_join : List String → String
| [] => ""
| s :: rest => rest.foldl (fun acc s2 => acc ++ ", " ++ s2) s

/-- Mirrors `space_join` from printer.rs. -/
def space_join : List String → String
| [] => ""
| s :: rest => rest.foldl (fun acc s2 => acc ++ " " ++ s2) s

/-- Mirrors `dot_join` from printer.rs. -/
def dot_join : List String → String
| [] => ""
| s :: rest => rest.foldl (fun acc s2 => acc ++ "." ++ s2) s

/-- A run of `n` space characters; `push_indent(n, s)` in printer.rs appends
exactly this to `s`. -/
def indent_str (n : Nat) : String := String.mk (List.replicate n ' ')

/-- Approximation of Rust's derived Debug formatting of a string used by the
printer's string-literal arm (the source itself marks that arm as cheating):
surrounding double quotes, with backslash escapes for the quote, the
backslash, and common control characters.  No claim depends on its details. -/
def rust_escape_char (c : Char) : String :=
  if c = '"' then "\\\""
  else if c = '\\' then "\\\\"
  else if c = '\n' then "\\n"
  else if c = '\t' then "\\t"
  else if c = '\r' then "\\r"
  else String.mk [c]

/-- Debug-style quoted rendering of a string literal (see `rust_escape_char`). -/
def rust_debug_string (s : String) : String :=
  "\"" ++ String.join (s.data.map rust_escape_char) ++ "\""

/-- Modelled from the spec: the fixed textual spelling carried by each unary
operator (section 3 of the spec); the `Display` impl for `Uop` is not part of
the two source files under src/. -/
def uop_str : Uop → String
| .Plus => "+"
| .Minus => "-"
| .Invert => "~"
| .Not => "not "

/-- Modelled from the spec: the fixed textual spelling carried by each binary
operator (section 3 of the spec); the `Display` impl for `Bop` is not part of
the two source files under src/.  Concrete scenario 3 of the spec fixes the
spellings of `Add` and `Mult` as a bare plus sign and asterisk. -/
def bop_str : Bop → String
| .Add => "+"
| .Sub => "-"
| .Mult => "*"
| .Matmult => "@"
| .Mod => "%"
| .Floordiv => "//"
| .Div => "/"
| .Power => "**"
| .Lshift => "<<"
| .Rshift => ">>"
| .BitAnd => "&"
| .BitXor => "^"
| .BitOr => "|"
| .Lt => "<"
| .Gt => ">"
| .Eq => "=="
| .Leq => "<="
| .Geq => ">="
| .Neq => "!="
| .In => " in "
| .NotIn => " not in "
| .Is => " is "
| .IsNot => " is not "
| .And => " and "
| .Or => " or "

/-- The atom-class test used by the binary-operator arm of `format_expr` in
printer.rs: `true` exactly for the variants listed in the first arm of the
closure `f` there (literals, names, container literals, comprehensions),
`false` for every other variant. -/
def is_atom_class : Expression → Bool
| .Ellipsis => true
| .None => true
| .True => true
| .False => true
| .Name _ => true
| .Int _ => true
| .Complex _ _ => true
| .Float _ => true
| .String _ => true
| .Bytes _ => true
| .DictLiteral _ => true
| .SetLiteral _ => true
| .ListLiteral _ => true
| .TupleLiteral _ => true
| .DictComp _ _ => true
| .SetComp _ _ => true
| .ListComp _ _ => true
| .Generator _ _ => true
| .Call _ _ => false
| .Subscript _ _ => false
| .Attribute _ _ => false
| .Uop _ _ => false
| .Bop _ _ _ => false
| .Ternary _ _ _ => false
| .Yield _ => false
| .YieldFrom _ => false
| .Star _ => false
| .Lambdef _ _ => false

/-- The closure `f` of the binary-operator arm in printer.rs, applied to an
operand whose own rendering is `s`: atom-class operands are passed through,
every other operand is wrapped in parentheses. -/
def bop_wrap (e : Expression) (s : String) : String :=
  if is_atom_class e then s else "(" ++ s ++ ")"

theorem ok_bind {ε α β : Type} (a : α) (k : α → Except ε β) :
    (Except.ok a >>= k) = k a := rfl

theorem error_bind {ε α β : Type} (e : ε) (k : α → Except ε β) :
    ((Except.error e : Except ε α) >>= k) = Except.error e := rfl

mutual

/-- Mirrors `format_expr` from printer.rs.  The variants reaching the Rust
wildcard arm (`Complex`, `Float`, `Bytes`, `Yield`, `YieldFrom`, `Lambdef`)
are written out explicitly and produce the unsupported-construct fault.  In
the binary-operator arm the source's closure `f` re-renders the operand after
testing its shape; here the operand is rendered once and the shape test is
`bop_wrap`, which is the same string. -/
def format_expr : Expression → Except RenderErr String
| .Ellipsis => .ok "..."
| .None => .ok "None"
| .True => .ok "True"
| .False => .ok "False"
| .Name n => .ok n
| .Int i => .ok (toString i)
| .Complex _ _ => .error .unimplemented
| .Float _ => .error .unimplemented
| .String s => .ok (rust_debug_string s)
| .Bytes _ => .error .unimplemented
| .DictLiteral v => do
    let items ← format_dictitem_list v
    .ok ("\x7b" ++ comma_join items ++ "\x7d")
| .SetLiteral v => do
    let items ← format_setitem_list v
    .ok ("\x7b" ++ comma_join items ++ "\x7d")
| .ListLiteral v => do
    let items ← format_setitem_list v
    .ok ("[" ++ comma_join items ++ "]")
| .TupleLiteral v => do
    let items ← format_setitem_list v
    .ok ("(" ++ comma_join items ++ ")")
| .DictComp item comp => do
    let i ← format_dictitem item
    let c ← format_comp_list comp
    .ok ("\x7b" ++ i ++ " " ++ space_join c ++ "\x7d")
| .SetComp item comp => do
    let i ← format_setitem item
    let c ← format_comp_list comp
    .ok ("\x7b" ++ i ++ " " ++ space_join c ++ "\x7d")
| .ListComp item comp => do
    let i ← format_setitem item
    let c ← format_comp_list comp
    .ok ("[" ++ i ++ " " ++ space_join c ++ "]")
| .Generator item comp => do
    let i ← format_setitem item
    let c ← format_comp_list comp
    .ok ("(" ++ i ++ " " ++ space_join c ++ ")")
| .Call f args => do
    let fs ← format_expr f
    let args_s ← format_args args
    .ok (fs ++ "(" ++ args_s ++ ")")
| .Subscript e sub => do
    let es ← format_expr e
    let subs ← format_subscript_list sub
    .ok (es ++ "[" ++ comma_join subs ++ "]")
| .Attribute e n => do
    let es ← format_expr e
    .ok (es ++ "." ++ n)
| .Uop op e => do
    let es ← format_expr e
    .ok (uop_str op ++ es)
| .Bop op e1 e2 => do
    let s1 ← format_expr e1
    let s2 ← format_expr e2
    .ok (bop_wrap e1 s1 ++ bop_str op ++ bop_wrap e2 s2)
| .Ternary e1 e2 e3 => do
    let s1 ← format_expr e1
    let s2 ← format_expr e2
    let s3 ← format_expr e3
    .ok ("(" ++ s1 ++ ") if (" ++ s2 ++ ") else (" ++ s3 ++ ")")
| .Yield _ => .error .unimplemented
| .YieldFrom _ => .error .unimplemented
| .Star e => do
    let es ← format_expr e
    .ok ("*" ++ es)
| .Lambdef _ _ => .error .unimplemented

/-- Renders each expression of a list in order (the iterator underlying the
`comma_join(exprs.iter().map(format_expr))` calls in printer.rs). -/
def format_expr_list : List Expression → Except RenderErr (List String)
| [] => .ok []
| e :: rest => do
    let s ← format_expr e
    let r ← format_expr_list rest
    .ok (s :: r)

/-- Mirrors `format_dictitem` from printer.rs. -/
def format_dictitem : DictItem → Except RenderErr String
| .Unique e1 e2 => do
    let s1 ← format_expr e1
    let s2 ← format_expr e2
    .ok (s1 ++ ":" ++ s2)
| .Star e => do
    let s ← format_expr e
    .ok ("**" ++ s)

def format_dictitem_list : List DictItem → Except RenderErr (List String)
| [] => .ok []
| i :: rest => do
    let s ← format_dictitem i
    let r ← format_dictitem_list rest
    .ok (s :: r)

/-- Mirrors `format_setitem` from printer.rs. -/
def format_setitem : SetItem → Except RenderErr String
| .Unique e => format_expr e
| .Star e => do
    let s ← format_expr e
    .ok ("*" ++ s)

def format_setitem_list : List SetItem → Except RenderErr (List String)
| [] => .ok []
| i :: rest => do
    let s ← format_setitem i
    let r ← format_setitem_list rest
    .ok (s :: r)

/-- Mirrors `format_comp` from printer.rs. -/
def format_comp : ComprehensionChunk → Except RenderErr String
| .If cond => do
    let c ← format_expr cond
    .ok ("if " ++ c)
| .For a item iterator => do
    let items ← format_expr_list item
    let it ← format_expr iterator
    .ok ((if a then "async " else "") ++ "for " ++ comma_join items ++ " in " ++ it)

def format_comp_list : List ComprehensionChunk → Except RenderErr (List String)
| [] => .ok []
| c :: rest => do
    let s ← format_comp c
    let r ← format_comp_list rest
    .ok (s :: r)

/-- Renders an optional slice bound: the `map(format_expr).unwrap_or_default()`
pattern of `format_subscript` in printer.rs. -/
def format_opt_expr : Option Expression → Except RenderErr String
| Option.none => .ok ""
| some e => format_expr e

/-- Mirrors `format_subscript` from printer.rs. -/
def format_subscript : Subscript → Except RenderErr String
| .Simple e => format_expr e
| .Double e1 e2 => do
    let s1 ← format_opt_expr e1
    let s2 ← format_opt_expr e2
    .ok (s1 ++ ":" ++ s2)
| .Triple e1 e2 e3 => do
    let s1 ← format_opt_expr e1
    let s2 ← format_opt_expr e2
    let s3 ← format_opt_expr e3
    .ok (s1 ++ ":" ++ s2 ++ ":" ++ s3)

def format_subscript_list : List Subscript → Except RenderErr (List String)
| [] => .ok []
| s :: rest => do
    let x ← format_subscript s
    let r ← format_subscript_list rest
    .ok (x :: r)

/-- Mirrors `format_pos_arg` from printer.rs. -/
def format_pos_arg : ArgumentE → Except RenderErr String
| .Normal e => format_expr e
| .Star e => do
    let s ← format_expr e
    .ok ("*" ++ s)

def format_pos_arg_list : List ArgumentE → Except RenderErr (List String)
| [] => .ok []
| a :: rest => do
    let s ← format_pos_arg a
    let r ← format_pos_arg_list rest
    .ok (s :: r)

/-- Mirrors `format_kw_arg` from printer.rs. -/
def format_kw_arg : ArgumentKW → Except RenderErr String
| .Normal n e => do
    let s ← format_expr e
    .ok (n ++ "=" ++ s)
| .Star e => do
    let s ← format_expr e
    .ok ("**" ++ s)

def format_kw_arg_list : List ArgumentKW → Except RenderErr (List String)
| [] => .ok []
| a :: rest => do
    let s ← format_kw_arg a
    let r ← format_kw_arg_list rest
    .ok (s :: r)

/-- Mirrors `format_args` from printer.rs: positional arguments, one
separating comma exactly when both groups are non-empty, keyword arguments. -/
def format_args : Arglist → Except RenderErr String
| .mk positional_args keyword_args => do
    let ps ← format_pos_arg_list positional_args
    let ks ← format_kw_arg_list keyword_args
    .ok (comma_join ps
         ++ (if positional_args.length > 0 && keyword_args.length > 0 then ", " else "")
         ++ comma_join ks)

end

/-- Mirrors `format_typed_param` from printer.rs: name, optional colon-type,
optional equals-default. -/
def format_typed_param : Name × Option Expression × Option Expression → Except RenderErr String
| (n, Option.none, Option.none) => .ok n
| (n, Option.none, some v) => do
    let vs ← format_expr v
    .ok (n ++ "=" ++ vs)
| (n, some t, Option.none) => do
    let ts ← format_expr t
    .ok (n ++ ":" ++ ts)
| (n, some t, some v) => do
    let ts ← format_expr t
    let vs ← format_expr v
    .ok (n ++ ":" ++ ts ++ "=" ++ vs)

def format_typed_param_list :
    List (Name × Option Expression × Option Expression) → Except RenderErr (List String)
| [] => .ok []
| p :: rest => do
    let s ← format_typed_param p
    let r ← format_typed_param_list rest
    .ok (s :: r)

/-- The `match star_args` block of `format_typed_params` in printer.rs: the
absent marker contributes nothing, the bare star contributes an asterisk with
a trailing separator, a named star-args contributes its name and optional
colon-type with no trailing separator. -/
def fmt_star_args : StarParams (Name × Option Expression) → Except RenderErr String
| .No => .ok ""
| .Anonymous => .ok "*, "
| .Named (n, Option.none) => .ok n
| .Named (n, some t) => do
    let ts ← format_expr t
    .ok (n ++ ":" ++ ts)

/-- The `if let Some((name, typed)) = star_kwargs` block of
`format_typed_params` in printer.rs: a double-star name with optional
colon-type and an unconditional trailing separator. -/
def fmt_star_kwargs : Option (Name × Option Expression) → Except RenderErr String
| Option.none => .ok ""
| some (n, Option.none) => .ok ("**" ++ n ++ ", ")
| some (n, some t) => do
    let ts ← format_expr t
    .ok ("**" ++ n ++ ":" ++ ts ++ ", ")

/-- Mirrors `format_typed_params` from printer.rs: comma-joined positional
parameters with a trailing separator whenever the group is non-empty, the
star-args marker, comma-joined keyword-only parameters with a trailing
separator whenever that group is non-empty, then the star-kwargs entry. -/
def format_typed_params (p : TypedArgsList) : Except RenderErr String := do
  let pos ← format_typed_param_list p.positional_args
  let star ← fmt_star_args p.star_args
  let kw ← format_typed_param_list p.keyword_args
  let skw ← fmt_star_kwargs p.star_kwargs
  .ok (comma_join pos ++ (if p.positional_args.length > 0 then ", " else "")
       ++ star
       ++ comma_join kw ++ (if p.keyword_args.length > 0 then ", " else "")
       ++ skw)

/-- Mirrors `format_decorators` from printer.rs: one at-sign line per
decorator, each at the current indent, with the optional call arguments
appended directly (the source adds no parentheses around them). -/
def format_decorators (ind : Nat) : List Decorator → Except RenderErr String
| [] => .ok ""
| ⟨n, Option.none⟩ :: rest => do
    let r ← format_decorators ind rest
    .ok (indent_str ind ++ "@" ++ dot_join n ++ "\n" ++ r)
| ⟨n, some al⟩ :: rest => do
    let args_s ← format_args al
    let r ← format_decorators ind rest
    .ok (indent_str ind ++ "@" ++ dot_join n ++ args_s ++ "\n" ++ r)

/-- The right-hand-side loop of the `Assignment` arm of `format_statement` in
printer.rs: each chained part is preceded by an equals sign with spaces. -/
def fmt_assign_rhs : List (List Expression) → Except RenderErr String
| [] => .ok ""
| part :: rest => do
    let ps ← format_expr_list part
    let r ← fmt_assign_rhs rest
    .ok (" = " ++ comma_join ps ++ r)

/-- Mirrors `format_dotted_name` from printer.rs: path components joined by
dots (first-flag loop in the source). -/
def format_dotted_name : List String → String
| [] => ""
| p :: rest => rest.foldl (fun acc part => acc ++ "." ++ part) p

/-- The name/alias loop of the `ImportFrom` arm of `format_import` in
printer.rs: each entry is the name, with the alias appended after the `as`
keyword when present, and nothing between consecutive entries. -/
def fmt_from_names : List (Name × Option Name) → String
| [] => ""
| (n, Option.none) :: rest => n ++ fmt_from_names rest
| (n, some a) :: rest => n ++ " as " ++ a ++ fmt_from_names rest

/-- The name/alias loop of the plain-import arm of `format_import` in
printer.rs: dotted path, optional `as` alias, nothing between entries. -/
def fmt_import_names : List (List Name × Option Name) → String
| [] => ""
| (n, Option.none) :: rest => format_dotted_name n ++ fmt_import_names rest
| (n, some a) :: rest => format_dotted_name n ++ " as " ++ a ++ fmt_import_names rest

/-- Mirrors `format_import` from printer.rs.  Import rendering touches only
names, so it is total. -/
def format_import : Import → String
| .ImportFrom leading_dots path names =>
    "from " ++ String.mk (List.replicate leading_dots '.') ++ format_dotted_name path
    ++ " import " ++ fmt_from_names names
| .Import names => "import " ++ fmt_import_names names

/-- The context-manager loop of the `With` arm of `format_compound_statement`
in printer.rs: entries separated by a comma (first-flag loop), each entry the
context expression followed by the optional `as` binding. -/
def format_with_items (first : Bool) :
    List (Expression × Option Expression) → Except RenderErr String
| [] => .ok ""
| (ctx, Option.none) :: rest => do
    let c ← format_expr ctx
    let r ← format_with_items false rest
    .ok ((if first then "" else ", ") ++ c ++ r)
| (ctx, some e) :: rest => do
    let c ← format_expr ctx
    let a ← format_expr e
    let r ← format_with_items false rest
    .ok ((if first then "" else ", ") ++ c ++ " as " ++ a ++ r)

mutual

/-- Mirrors `format_statement` from printer.rs: the indent is pushed first,
then the per-variant body; every simple variant ends its line with a line
break.  The wildcard arm of the source (reached exactly by `TypedAssignment`
and `AugmentedAssignment`) is written out explicitly and produces the
unsupported-construct fault. -/
def format_statement (ind : Nat) : Statement → Except RenderErr String
| .Pass => .ok (indent_str ind ++ "pass\n")
| .Del names => .ok (indent_str ind ++ "del " ++ comma_join names ++ "\n")
| .Break => .ok (indent_str ind ++ "break\n")
| .Continue => .ok (indent_str ind ++ "continue\n")
| .Return exprs => do
    let es ← format_expr_list exprs
    .ok (indent_str ind ++ "return " ++ comma_join es ++ "\n")
| .RaiseExcFrom exc from_exc => do
    let e1 ← format_expr exc
    let e2 ← format_expr from_exc
    .ok (indent_str ind ++ "raise " ++ e1 ++ " from " ++ e2 ++ "\n")
| .RaiseExc exc => do
    let e1 ← format_expr exc
    .ok (indent_str ind ++ "raise " ++ e1 ++ "\n")
| .Raise => .ok (indent_str ind ++ "raise\n")
| .Global names => .ok (indent_str ind ++ "global " ++ comma_join names ++ "\n")
| .Nonlocal names => .ok (indent_str ind ++ "nonlocal " ++ comma_join names ++ "\n")
| .Assert expr Option.none => do
    let e1 ← format_expr expr
    .ok (indent_str ind ++ "assert " ++ e1 ++ "\n")
| .Assert expr (some msg) => do
    let e1 ← format_expr expr
    let m ← format_expr msg
    .ok (indent_str ind ++ "assert " ++ e1 ++ ", " ++ m ++ "\n")
| .Import imp => .ok (indent_str ind ++ format_import imp ++ "\n")
| .Expressions exprs => do
    let es ← format_expr_list exprs
    .ok (indent_str ind ++ comma_join es ++ "\n")
| .Assignment lhs rhs => do
    let ls ← format_expr_list lhs
    let rs ← fmt_assign_rhs rhs
    .ok (indent_str ind ++ comma_join ls ++ rs ++ "\n")
| .TypedAssignment _ _ _ => .error .unimplemented
| .AugmentedAssignment _ _ _ => .error .unimplemented
| .Compound c => do
    let cs ← format_compound_statement ind c
    .ok (indent_str ind ++ cs)

/-- Mirrors `format_block` from printer.rs: the concatenation of the
renderings of the statements, each at the given indent. -/
def format_block (ind : Nat) : List Statement → Except RenderErr String
| [] => .ok ""
| stmt :: rest => do
    let s ← format_statement ind stmt
    let r ← format_block ind rest
    .ok (s ++ r)

/-- The condition/block loop of the `If` arm of `format_compound_statement`
in printer.rs: the first pair uses the `if` keyword and no extra indent (the
indent of the whole line was pushed by `format_statement`), later pairs use
`elif` behind a fresh indent. -/
def format_if_chain (ind : Nat) (first : Bool) :
    List (Expression × List Statement) → Except RenderErr String
| [] => .ok ""
| (cond, block) :: rest => do
    let c ← format_expr cond
    let b ← format_block (ind + 4) block
    let r ← format_if_chain ind false rest
    .ok ((if first then "if " else indent_str ind ++ "elif ") ++ c ++ ":\n" ++ b ++ r)

/-- The typed-except loop of the `Try` arm of `format_compound_statement` in
printer.rs: each clause renders its guard, the optional `as` name, and its
block one indent unit deeper. -/
def format_except_clauses (ind : Nat) :
    List (Expression × Option Name × List Statement) → Except RenderErr String
| [] => .ok ""
| (guard, Option.none, block) :: rest => do
    let g ← format_expr guard
    let b ← format_block (ind + 4) block
    let r ← format_except_clauses ind rest
    .ok (indent_str ind ++ "except " ++ g ++ ":\n" ++ b ++ r)
| (guard, some n, block) :: rest => do
    let g ← format_expr guard
    let b ← format_block (ind + 4) block
    let r ← format_except_clauses ind rest
    .ok (indent_str ind ++ "except " ++ g ++ " as " ++ n ++ ":\n" ++ b ++ r)

/-- Mirrors `format_compound_statement` from printer.rs.  The `With` arm's
`assert!(contexts.len() > 0)` becomes the assertion-failure fault; the
`Classdef` arm is the source's `unimplemented!()`.  The `Try` arm emits the
bare-except, else, and finally sections only when their statement sequences
are non-empty, and the finally header really is the text `finally_block:`. -/
def format_compound_statement (ind : Nat) : CompoundStatement → Except RenderErr String
| .If cond_blocks Option.none => format_if_chain ind true cond_blocks
| .If cond_blocks (some b) => do
    let s ← format_if_chain ind true cond_blocks
    let bs ← format_block (ind + 4) b
    .ok (s ++ indent_str ind ++ "else:\n" ++ bs)
| .For a item iterator for_block Option.none => do
    let items ← format_expr_list item
    let its ← format_expr_list iterator
    let fb ← format_block (ind + 4) for_block
    .ok ((if a then "async " else "") ++ "for " ++ comma_join items
         ++ " in " ++ comma_join its ++ ":\n" ++ fb)
| .For a item iterator for_block (some b) => do
    let items ← format_expr_list item
    let its ← format_expr_list iterator
    let fb ← format_block (ind + 4) for_block
    let bs ← format_block (ind + 4) b
    .ok ((if a then "async " else "") ++ "for " ++ comma_join items
         ++ " in " ++ comma_join its ++ ":\n" ++ fb
         ++ indent_str ind ++ "else:\n" ++ bs)
| .While cond block Option.none => do
    let c ← format_expr cond
    let bs ← format_block (ind + 4) block
    .ok ("while " ++ c ++ ":\n" ++ bs)
| .While cond block (some b) => do
    let c ← format_expr cond
    let bs ← format_block (ind + 4) block
    let es ← format_block (ind + 4) b
    .ok ("while " ++ c ++ ":\n" ++ bs ++ indent_str ind ++ "else:\n" ++ es)
| .Try (.mk try_block except_clauses last_except else_block finally_block) => do
    let tb ← format_block (ind + 4) try_block
    let ec ← format_except_clauses ind except_clauses
    let le ← (if last_except.length > 0 then do
        let b ← format_block (ind + 4) last_except
        .ok (indent_str ind ++ "except:\n" ++ b)
      else .ok "")
    let eb ← (if else_block.length > 0 then do
        let b ← format_block (ind + 4) else_block
        .ok (indent_str ind ++ "else:\n" ++ b)
      else .ok "")
    let fb ← (if finally_block.length > 0 then do
        let b ← format_block (ind + 4) finally_block
        .ok (indent_str ind ++ "finally_block:\n" ++ b)
      else .ok "")
    .ok ("try:\n" ++ tb ++ ec ++ le ++ eb ++ fb)
| .With contexts block =>
    if contexts.length > 0 then do
      let cs ← format_with_items true contexts
      let bs ← format_block (ind + 4) block
      .ok ("with " ++ cs ++ ":\n" ++ bs)
    else .error .assertionFailed
| .Funcdef fd => format_funcdef ind fd
| .Classdef _ => .error .unimplemented

/-- Mirrors `format_funcdef` from printer.rs: a leading empty line, the
decorator lines, the indented (optionally async) def-header with the typed
parameter list and optional return type, the body one indent unit deeper,
and a trailing empty line. -/
def format_funcdef (ind : Nat) : Funcdef → Except RenderErr String
| .mk a decorators name parameters Option.none code => do
    let dec ← format_decorators ind decorators
    let ps ← format_typed_params parameters
    let body ← format_block (ind + 4) code
    .ok ("\n" ++ dec ++ indent_str ind ++ (if a then "async " else "")
         ++ "def " ++ name ++ "(" ++ ps ++ ")" ++ ":\n" ++ body ++ "\n")
| .mk a decorators name parameters (some r) code => do
    let dec ← format_decorators ind decorators
    let ps ← format_typed_params parameters
    let rs ← format_expr r
    let body ← format_block (ind + 4) code
    .ok ("\n" ++ dec ++ indent_str ind ++ (if a then "async " else "")
         ++ "def " ++ name ++ "(" ++ ps ++ ")" ++ " -> " ++ rs ++ ":\n" ++ body ++ "\n")

end

/-- Mirrors `format_module` from printer.rs: each top-level statement rendered
at indent 0, concatenated in order. -/
def format_module : List Statement → Except RenderErr String
| [] => .ok ""
| stmt :: rest => do
    let s ← format_statement 0 stmt
    let r ← format_module rest
    .ok (s ++ r)

/-! Line-level analysis of rendered text, for the indentation property. -/

/-- Splits a character list at every newline.  A string that ends with a
newline yields its lines followed by one final empty piece. -/
def splitNl : List Char → List (List Char)
| [] => [[]]
| c :: r =>
    if c = '\n' then [] :: splitNl r
    else (c :: (splitNl r).headD []) :: (splitNl r).tail

/-- The lines of a rendered string: the pieces between newlines, without the
empty piece that a final newline produces. -/
def linesOf (s : String) : List (List Char) := (splitNl s.data).dropLast

/-- The number of leading space characters of a line. -/
def leading_spaces (l : List Char) : Nat := (l.takeWhile (fun c => c == ' ')).length

theorem splitNl_ne_nil (l : List Char) : splitNl l ≠ [] := by
  induction l with
  | nil => simp [splitNl]
  | cons c r ih =>
      simp only [splitNl]
      split
      · simp
      · simp

theorem splitNl_append (a b : List Char) (h : '\n' ∉ a) :
    splitNl (a ++ '\n' :: b) = a :: splitNl b := by
  induction a with
  | nil => simp [splitNl]
  | cons c r ih =>
      have hc : c ≠ '\n' := by
        intro hc
        exact h (by simp [hc])
      have hr : '\n' ∉ r := by
        intro hm
        exact h (by simp [hm])
      simp only [List.cons_append, splitNl, hc, if_false]
      simp [ih hr]

theorem leading_spaces_replicate (n : Nat) (body : List Char)
    (hne : body ≠ []) (hh : body.head? ≠ some ' ') :
    leading_spaces (List.replicate n ' ' ++ body) = n := by
  induction n with
  | zero =>
      cases body with
      | nil => exact absurd rfl hne
      | cons c t =>
          have hc : c ≠ ' ' := by
            intro hc
            exact hh (by simp [hc])
          have hb : (c == ' ') = false := beq_eq_false_iff_ne.mpr hc
          simp [leading_spaces, List.takeWhile, hb]
  | succ m ih =>
      simpa [leading_spaces, List.replicate_succ, List.takeWhile] using ih

theorem str_data_append (a b : String) : (a ++ b).data = a.data ++ b.data :=
  String.data_append a b

/-! Spec-side classification of expressions, used to compare the printer's
atom test with the spec's atom-class glossary entry. -/

/-- Literal expressions per section 3 of the spec: ellipsis, none, boolean,
integer, float, complex, string, byte-string. -/
def is_literal_expr : Expression → Bool
| .Ellipsis => true
| .None => true
| .True => true
| .False => true
| .Int _ => true
| .Float _ => true
| .Complex _ _ => true
| .String _ => true
| .Bytes _ => true
| _ => false

/-- Name-reference expressions. -/
def is_name_ref : Expression → Bool
| .Name _ => true
| _ => false

/-- Container-literal expressions: dict, set, list, tuple literals. -/
def is_container_literal : Expression → Bool
| .DictLiteral _ => true
| .SetLiteral _ => true
| .ListLiteral _ => true
| .TupleLiteral _ => true
| _ => false

/-- Comprehension expressions: dict, set, list comprehensions and generators. -/
def is_comprehension_expr : Expression → Bool
| .DictComp _ _ => true
| .SetComp _ _ => true
| .ListComp _ _ => true
| .Generator _ _ => true
| _ => false

/-! Shared rendering lemmas. -/

theorem bop_render (op : Bop) (e1 e2 : Expression) (s1 s2 : String)
    (h1 : format_expr e1 = .ok s1) (h2 : format_expr e2 = .ok s2) :
    format_expr (.Bop op e1 e2) = .ok (bop_wrap e1 s1 ++ bop_str op ++ bop_wrap e2 s2) := by
  rw [format_expr, h1, ok_bind, h2, ok_bind]

theorem ternary_render (e1 e2 e3 : Expression) (s1 s2 s3 : String)
    (h1 : format_expr e1 = .ok s1) (h2 : format_expr e2 = .ok s2)
    (h3 : format_expr e3 = .ok s3) :
    format_expr (.Ternary e1 e2 e3) =
      .ok ("(" ++ s1 ++ ") if (" ++ s2 ++ ") else (" ++ s3 ++ ")") := by
  rw [format_expr, h1, ok_bind, h2, ok_bind, h3, ok_bind]

/-- A statement is single-line when at every indent it renders as exactly
that indent, a fixed newline-free non-empty body that does not start with a
space, and a final newline. -/
def single_line (stmt : Statement) : Prop :=
  ∃ b : String,
    (∀ i, format_statement i stmt = .ok (indent_str i ++ (b ++ "\n"))) ∧
    b ≠ "" ∧ '\n' ∉ b.data ∧ b.data.head? ≠ some ' '

theorem string_ne_empty_data {b : String} (h : b ≠ "") : b.data ≠ [] := by
  intro hd
  apply h
  cases b with
  | mk d =>
      cases hd
      rfl

theorem format_block_lines (ind : Nat) (stmts : List Statement)
    (hsimple : ∀ stmt ∈ stmts, single_line stmt) :
    ∀ s, format_block ind stmts = .ok s → ∀ l ∈ linesOf s, leading_spaces l = ind := by
  induction stmts with
  | nil =>
      intro s hs l hl
      rw [format_block] at hs
      injection hs with hs
      subst hs
      simp [linesOf, splitNl] at hl
  | cons stmt rest ih =>
      intro s hs l hl
      obtain ⟨b, hfmt, hbne, hbnl, hbh⟩ := hsimple stmt (List.mem_cons_self stmt rest)
      rw [format_block, hfmt ind, ok_bind] at hs
      cases hrest : format_block ind rest with
      | error e =>
          rw [hrest, error_bind] at hs
          exact absurd hs (by simp)
      | ok r =>
          rw [hrest, ok_bind] at hs
          injection hs with hs
          subst hs
          have hdata : (indent_str ind ++ (b ++ "\n") ++ r).data
              = (List.replicate ind ' ' ++ b.data) ++ '\n' :: r.data := by
            simp [str_data_append, indent_str]
          have hnotin : '\n' ∉ List.replicate ind ' ' ++ b.data := by
            intro hmem
        
            rcases List.mem_append.mp hmem with hmem | hmem
            · have := List.eq_of_mem_replicate hmem
              exact absurd this (by decide)
            · exact hbnl hmem
          have hsplit : splitNl ((indent_str ind ++ (b ++ "\n") ++ r).data)
              = (List.replicate ind ' ' ++ b.data) :: splitNl r.data := by
            rw [hdata]
            exact splitNl_append _ _ hnotin
          have hlines : linesOf (indent_str ind ++ (b ++ "\n") ++ r)
              = (List.replicate ind ' ' ++ b.data) :: linesOf r := by
            unfold linesOf
            rw [hsplit]
            obtain ⟨h0, t0, ht⟩ := List.exists_cons_of_ne_nil (splitNl_ne_nil r.data)
            rw [ht]
            exact List.dropLast_cons₂
          rw [hlines] at hl
          rcases List.mem_cons.mp hl with hl | hl
          · subst hl
            exact leading_spaces_replicate ind b.data (string_ne_empty_data hbne) hbh
          · exact ih (fun st hst => hsimple st (List.mem_cons_of_mem _ hst)) r hrest l hl

theorem single_line_pass : single_line .Pass := by
  refine ⟨"pass", fun i => ?_, by decide, by decide, by decide⟩
  rw [format_statement]
  rfl

theorem single_line_continue : single_line .Continue := by
  refine ⟨"continue", fun i => ?_, by decide, by decide, by decide⟩
  rw [format_statement]
  rfl

/-- The conditional-section pattern of the `Try` arm: a section guarded by the
non-emptiness of its statement sequence renders to nothing when the sequence
is empty and to its header line plus its block otherwise. -/
theorem try_section (ind : Nat) (l : List Statement) (hdr : String) (b : String)
    (hb : format_block (ind + 4) l = .ok b) :
    (if l.length > 0 then do
        let x ← format_block (ind + 4) l
        (.ok (indent_str ind ++ hdr ++ x) : Except RenderErr String)
      else .ok "")
    = .ok (if l.isEmpty then "" else indent_str ind ++ hdr ++ b) := by
  cases l with
  | nil => simp
  | cons h t => simp [hb, ok_bind]

/-- C7: rendering the expression Bop(Add, Name a, Bop(Mult, Name b, Name c))
produces exactly the text a+(b*c): the nested binary operand is wrapped in
parentheses while the outer name operand is not, with no reference to
arithmetic precedence. -/
theorem concrete_scenario_three :
    format_expr (.Bop .Add (.Name "a") (.Bop .Mult (.Name "b") (.Name "c")))
      = .ok "a+(b*c)" := by
  simp only [format_expr, ok_bind, bop_wrap, is_atom_class, bop_str]
  rfl

/-- C1: in a binary-operator expression each operand that is not atom-class
(not one of: literal, name reference, container literal, comprehension) is
rendered wrapped in parentheses while atom-class operands are rendered bare,
and a ternary expression renders all three sub-expressions wrapped in
parentheses unconditionally.  The first conjunct checks that the printer's
atom test agrees with the spec's atom-class glossary entry. -/
theorem parenthesization_safety :
    (∀ e, is_atom_class e =
      (is_literal_expr e || is_name_ref e || is_container_literal e || is_comprehension_expr e))
    ∧ (∀ (op : Bop) (e1 e2 : Expression) (s1 s2 : String),
        format_expr e1 = .ok s1 → format_expr e2 = .ok s2 →
        format_expr (.Bop op e1 e2) =
          .ok ((if is_atom_class e1 then s1 else "(" ++ s1 ++ ")")
               ++ bop_str op
               ++ (if is_atom_class e2 then s2 else "(" ++ s2 ++ ")")))
    ∧ (∀ (e1 e2 e3 : Expression) (s1 s2 s3 : String),
        format_expr e1 = .ok s1 → format_expr e2 = .ok s2 → format_expr e3 = .ok s3 →
        format_expr (.Ternary e1 e2 e3) =
          .ok ("(" ++ s1 ++ ") if (" ++ s2 ++ ") else (" ++ s3 ++ ")")) := by
  refine ⟨fun e => ?_, fun op e1 e2 s1 s2 h1 h2 => ?_, ternary_render⟩
  · cases e <;> rfl
  · rw [bop_render op e1 e2 s1 s2 h1 h2]
    rfl

/-- Witness for C1 at a concrete input: a name operand is left bare, a unary
operation operand (not atom-class) is wrapped, and a concrete ternary wraps
all three parts. -/
theorem parenthesization_safety_witness :
    format_expr (.Bop .Mult (.Name "x") (.Uop .Minus (.Name "y"))) =
      .ok ((if is_atom_class (.Name "x") then "x" else "(" ++ "x" ++ ")")
           ++ bop_str .Mult
           ++ (if is_atom_class (.Uop .Minus (.Name "y")) then "-y" else "(" ++ "-y" ++ ")"))
    ∧ format_expr (.Ternary (.Name "p") (.Name "q") (.Name "r")) =
      .ok ("(" ++ "p" ++ ") if (" ++ "q" ++ ") else (" ++ "r" ++ ")") :=
  ⟨parenthesization_safety.2.1 .Mult (.Name "x") (.Uop .Minus (.Name "y")) "x" "-y"
      (by rw [format_expr])
      (by simp only [format_expr, ok_bind, uop_str]; rfl),
   parenthesization_safety.2.2 (.Name "p") (.Name "q") (.Name "r") "p" "q" "r"
      (by rw [format_expr]) (by rw [format_expr]) (by rw [format_expr])⟩

/-- C5 counterexample: a call used as a binary-operator operand is rendered
wrapped in parentheses, not bare as the claim states. -/
theorem call_operand_wrapped_concrete :
    format_expr (.Bop .Add (.Call (.Name "f") (.mk [] [])) (.Name "g")) = .ok "(f())+g"
    ∧ "(f())+g" ≠ "f()+g" := by
  constructor
  · simp only [format_expr, format_args, format_pos_arg_list, format_kw_arg_list,
      ok_bind, comma_join, bop_wrap, is_atom_class, bop_str]
    rfl
  · decide

/-- C5 amended: call, subscript, and attribute-access operands are not in the
printer's atom class, so when they appear as binary-operator operands they are
rendered wrapped in parentheses (the opposite of what the claim states). -/
theorem trailer_operands_not_atom_class :
    (∀ (f : Expression) (a : Arglist), is_atom_class (.Call f a) = false)
    ∧ (∀ (e : Expression) (sub : List Subscript), is_atom_class (.Subscript e sub) = false)
    ∧ (∀ (e : Expression) (n : Name), is_atom_class (.Attribute e n) = false)
    ∧ (∀ (op : Bop) (e1 e2 : Expression) (s1 s2 : String),
        is_atom_class e1 = false →
        format_expr e1 = .ok s1 → format_expr e2 = .ok s2 →
        format_expr (.Bop op e1 e2) =
          .ok ("(" ++ s1 ++ ")" ++ bop_str op ++ bop_wrap e2 s2)) := by
  refine ⟨fun _ _ => rfl, fun _ _ => rfl, fun _ _ => rfl,
    fun op e1 e2 s1 s2 hato h1 h2 => ?_⟩
  rw [bop_render op e1 e2 s1 s2 h1 h2]
  rw [show bop_wrap e1 s1 = "(" ++ s1 ++ ")" from by rw [bop_wrap, hato]; rfl]

/-- Witness for the amended C5 at a concrete input: a subscript operand is
wrapped. -/
theorem trailer_operands_not_atom_class_witness :
    format_expr (.Bop .Sub (.Subscript (.Name "m") [.Simple (.Int 0)]) (.Name "t")) =
      .ok ("(" ++ "m[0]" ++ ")" ++ bop_str .Sub ++ bop_wrap (.Name "t") "t") :=
  trailer_operands_not_atom_class.2.2.2 .Sub (.Subscript (.Name "m") [.Simple (.Int 0)])
    (.Name "t") "m[0]" "t" rfl
    (by simp only [format_expr, format_subscript_list, format_subscript, ok_bind, comma_join]
        rfl)
    (by rw [format_expr])

/-- C2: the import renderer concatenates consecutive name/alias entries with
no separator at all, both in the from-import form and in the plain import
form, so two-entry imports render as a single fused token sequence instead of
a comma-separated list. -/
theorem import_entries_not_separated :
    format_import (.Import [(["a"], Option.none), (["b"], Option.none)]) = "import ab"
    ∧ format_import (.ImportFrom 0 ["m"] [("x", Option.none), ("y", Option.none)])
        = "from m import xy"
    ∧ "import ab" ≠ "import a, b"
    ∧ "from m import xy" ≠ "from m import x, y" := by
  refine ⟨by rfl, by rfl, by decide, by decide⟩

/-- C3 counterexample: the statement renderer fails with the
unsupported-construct panic on a typed assignment and on an augmented
assignment instead of producing a line of text. -/
theorem typed_aug_assignment_panic_concrete :
    format_statement 0 (.TypedAssignment [.Name "x"] (.Name "int") [.Name "y"])
      = .error .unimplemented
    ∧ format_statement 0 (.AugmentedAssignment [.Name "x"] .Add [.Name "y"])
      = .error .unimplemented := by
  constructor <;> rw [format_statement]

/-- C3 amended: typed-assignment and augmented-assignment statements are not
rendered at all; both fall into the statement renderer's wildcard arm and
raise the unsupported-construct fault at every indent and for every operand
list. -/
theorem typed_aug_assignment_unimplemented :
    (∀ (ind : Nat) (lhs : List Expression) (t : Expression) (rhs : List Expression),
      format_statement ind (.TypedAssignment lhs t rhs) = .error .unimplemented)
    ∧ (∀ (ind : Nat) (lhs : List Expression) (op : AugAssignOp) (rhs : List Expression),
      format_statement ind (.AugmentedAssignment lhs op rhs) = .error .unimplemented) :=
  ⟨fun _ _ _ _ => by rw [format_statement], fun _ _ _ _ => by rw [format_statement]⟩

/-- C4 counterexample: the typed-parameter renderer emits a trailing group
separator after the last non-empty group (a lone positional parameter renders
with a trailing comma-space), and emits no separator between a named star-args
entry and a following non-empty keyword-only group (the two names are fused). -/
theorem typed_params_separator_misplaced :
    format_typed_params ⟨[("a", Option.none, Option.none)], .No, [], Option.none⟩ = .ok "a, "
    ∧ "a, " ≠ "a"
    ∧ format_typed_params
        ⟨[], .Named ("args", Option.none), [("k", Option.none, Option.none)], Option.none⟩
        = .ok "argsk, "
    ∧ "argsk, " ≠ "args, k" := by
  refine ⟨by rfl, by decide, by rfl, by decide⟩

theorem length_pos_if {α : Type} (l : List α) (x y : String) :
    (if l.length > 0 then x else y) = (if l.isEmpty then y else x) := by
  cases l <;> simp

/-- C4 amended: the typed-parameter renderer emits the groups in order
positional params, star-marker, keyword-only params, star-kwargs, each group
comma-separated internally; it appends one trailing comma-space separator
after the positional group whenever that group is non-empty and after the
keyword-only group whenever that group is non-empty (even when nothing
follows), the bare star-marker and the star-kwargs entry carry their own
trailing separator, and a named star-args entry is emitted with no following
separator at all. -/
theorem typed_params_group_separators :
    ∀ (p : TypedArgsList) (pos kw : List String) (star skw : String),
      format_typed_param_list p.positional_args = .ok pos →
      fmt_star_args p.star_args = .ok star →
      format_typed_param_list p.keyword_args = .ok kw →
      fmt_star_kwargs p.star_kwargs = .ok skw →
      format_typed_params p =
        .ok (comma_join pos ++ (if p.positional_args.isEmpty then "" else ", ")
             ++ star ++ comma_join kw ++ (if p.keyword_args.isEmpty then "" else ", ")
             ++ skw) := by
  intro p pos kw star skw h1 h2 h3 h4
  unfold format_typed_params
  rw [h1, ok_bind, h2, ok_bind, h3, ok_bind, h4, ok_bind,
      length_pos_if p.positional_args, length_pos_if p.keyword_args]

/-- Witness for the amended C4 at a concrete input with all four groups
present. -/
theorem typed_params_group_separators_witness :
    format_typed_params
      ⟨[("a", Option.none, Option.none)], .Anonymous,
       [("k", Option.none, Option.none)], some ("kw", Option.none)⟩
      = .ok "a, *, k, **kw, " :=
  typed_params_group_separators
    ⟨[("a", Option.none, Option.none)], .Anonymous,
     [("k", Option.none, Option.none)], some ("kw", Option.none)⟩
    ["a"] ["k"] "*, " "**kw, " rfl rfl rfl rfl

/-- C6 counterexample: a block rendered at depth 1 (indent 4) that contains a
function definition produces an indentation-only line, a body line at indent
8, and a final completely empty line with 0 leading spaces, so not every line
of the block begins with exactly 4 leading spaces. -/
theorem nested_block_line_without_indent :
    format_block 4
      [.Compound (.Funcdef (.mk false [] "f" ⟨[], .No, [], Option.none⟩ Option.none [.Pass]))]
      = .ok "    \n    def f():\n        pass\n\n"
    ∧ (linesOf "    \n    def f():\n        pass\n\n").map leading_spaces = [4, 4, 8, 0]
    ∧ (0 : Nat) ≠ 4 * 1 := by
  refine ⟨?_, by decide, by decide⟩
  simp only [format_block, format_statement, format_compound_statement, format_funcdef,
    format_decorators, ok_bind]
  rfl

/-- C6 amended: for a block of single-line (simple) statements rendered at
depth d, every line of the block's rendering begins with exactly 4*d leading
spaces; and every compound statement renders each of its nested blocks with
the indent increased by exactly one 4-space unit: the if/elif chain bodies
and the else block of an if, the body and else block of a for, the body and
else block of a while, the body of a with, the try block, except-clause
blocks and conditional sections of a try, and the body of a function
definition are all rendered by the block renderer at ind + 4, while the
compound statement's own first line carries the enclosing indent.  Blocks
containing function definitions violate the per-line rule through the blank
lines the funcdef emits. -/
theorem indentation_of_simple_blocks :
    (∀ (d : Nat) (stmts : List Statement) (s : String),
       (∀ stmt ∈ stmts, single_line stmt) →
       format_block (4 * d) stmts = .ok s →
       ∀ l ∈ linesOf s, leading_spaces l = 4 * d)
    ∧ (∀ (ind : Nat) (c : CompoundStatement) (cs : String),
        format_compound_statement ind c = .ok cs →
        format_statement ind (.Compound c) = .ok (indent_str ind ++ cs))
    ∧ (∀ (ind : Nat) (first : Bool) (cond : Expression) (block : List Statement)
         (rest : List (Expression × List Statement)) (cs bs rs : String),
        format_expr cond = .ok cs → format_block (ind + 4) block = .ok bs →
        format_if_chain ind false rest = .ok rs →
        format_if_chain ind first ((cond, block) :: rest) =
          .ok ((if first then "if " else indent_str ind ++ "elif ")
               ++ cs ++ ":\n" ++ bs ++ rs))
    ∧ (∀ (ind : Nat) (cond_blocks : List (Expression × List Statement)),
        format_compound_statement ind (.If cond_blocks Option.none) =
          format_if_chain ind true cond_blocks)
    ∧ (∀ (ind : Nat) (cond_blocks : List (Expression × List Statement))
         (b : List Statement) (s bs : String),
        format_if_chain ind true cond_blocks = .ok s →
        format_block (ind + 4) b = .ok bs →
        format_compound_statement ind (.If cond_blocks (some b)) =
          .ok (s ++ indent_str ind ++ "else:\n" ++ bs))
    ∧ (∀ (ind : Nat) (a : Bool) (item iterator : List Expression)
         (for_block : List Statement) (items_s its_s : List String) (fs : String),
        format_expr_list item = .ok items_s → format_expr_list iterator = .ok its_s →
        format_block (ind + 4) for_block = .ok fs →
        format_compound_statement ind (.For a item iterator for_block Option.none) =
          .ok ((if a then "async " else "") ++ "for " ++ comma_join items_s
               ++ " in " ++ comma_join its_s ++ ":\n" ++ fs))
    ∧ (∀ (ind : Nat) (a : Bool) (item iterator : List Expression)
         (for_block b : List Statement) (items_s its_s : List String) (fs bs : String),
        format_expr_list item = .ok items_s → format_expr_list iterator = .ok its_s →
        format_block (ind + 4) for_block = .ok fs → format_block (ind + 4) b = .ok bs →
        format_compound_statement ind (.For a item iterator for_block (some b)) =
          .ok ((if a then "async " else "") ++ "for " ++ comma_join items_s
               ++ " in " ++ comma_join its_s ++ ":\n" ++ fs
               ++ indent_str ind ++ "else:\n" ++ bs))
    ∧ (∀ (ind : Nat) (c : Expression) (blk : List Statement) (cs bs : String),
        format_expr c = .ok cs → format_block (ind + 4) blk = .ok bs →
        format_compound_statement ind (.While c blk Option.none) =
          .ok ("while " ++ cs ++ ":\n" ++ bs))
    ∧ (∀ (ind : Nat) (c : Expression) (blk b : List Statement) (cs bs es : String),
        format_expr c = .ok cs → format_block (ind + 4) blk = .ok bs →
        format_block (ind + 4) b = .ok es →
        format_compound_statement ind (.While c blk (some b)) =
          .ok ("while " ++ cs ++ ":\n" ++ bs ++ indent_str ind ++ "else:\n" ++ es))
    ∧ (∀ (ind : Nat) (contexts : List (Expression × Option Expression))
         (block : List Statement) (cs bs : String),
        contexts ≠ [] →
        format_with_items true contexts = .ok cs →
        format_block (ind + 4) block = .ok bs →
        format_compound_statement ind (.With contexts block) =
          .ok ("with " ++ cs ++ ":\n" ++ bs))
    ∧ (∀ (ind : Nat) (guard : Expression) (block : List Statement)
         (rest : List (Expression × Option Name × List Statement)) (g b r : String),
        format_expr guard = .ok g → format_block (ind + 4) block = .ok b →
        format_except_clauses ind rest = .ok r →
        format_except_clauses ind ((guard, Option.none, block) :: rest) =
          .ok (indent_str ind ++ "except " ++ g ++ ":\n" ++ b ++ r))
    ∧ (∀ (ind : Nat) (guard : Expression) (n : Name) (block : List Statement)
         (rest : List (Expression × Option Name × List Statement)) (g b r : String),
        format_expr guard = .ok g → format_block (ind + 4) block = .ok b →
        format_except_clauses ind rest = .ok r →
        format_except_clauses ind ((guard, some n, block) :: rest) =
          .ok (indent_str ind ++ "except " ++ g ++ " as " ++ n ++ ":\n" ++ b ++ r))
    ∧ (∀ (ind : Nat) (tb ec le eb fb : String)
         (try_block : List Statement)
         (except_clauses : List (Expression × Option Name × List Statement))
         (last_except else_block finally_block : List Statement),
        format_block (ind + 4) try_block = .ok tb →
        format_except_clauses ind except_clauses = .ok ec →
        format_block (ind + 4) last_except = .ok le →
        format_block (ind + 4) else_block = .ok eb →
        format_block (ind + 4) finally_block = .ok fb →
        format_compound_statement ind
          (.Try (.mk try_block except_clauses last_except else_block finally_block)) =
          .ok ("try:\n" ++ tb ++ ec
               ++ (if last_except.isEmpty then "" else indent_str ind ++ "except:\n" ++ le)
               ++ (if else_block.isEmpty then "" else indent_str ind ++ "else:\n" ++ eb)
               ++ (if finally_block.isEmpty then ""
                   else indent_str ind ++ "finally_block:\n" ++ fb)))
    ∧ (∀ (ind : Nat) (a : Bool) (decorators : List Decorator) (name : String)
         (parameters : TypedArgsList) (code : List Statement) (dec ps body : String),
        format_decorators ind decorators = .ok dec →
        format_typed_params parameters = .ok ps →
        format_block (ind + 4) code = .ok body →
        format_compound_statement ind
          (.Funcdef (.mk a decorators name parameters Option.none code)) =
          .ok ("\n" ++ dec ++ indent_str ind ++ (if a then "async " else "")
               ++ "def " ++ name ++ "(" ++ ps ++ ")" ++ ":\n" ++ body ++ "\n"))
    ∧ (∀ (ind : Nat) (a : Bool) (decorators : List Decorator) (name : String)
         (parameters : TypedArgsList) (r : Expression) (code : List Statement)
         (dec ps rs body : String),
        format_decorators ind decorators = .ok dec →
        format_typed_params parameters = .ok ps →
        format_expr r = .ok rs →
        format_block (ind + 4) code = .ok body →
        format_compound_statement ind
          (.Funcdef (.mk a decorators name parameters (some r) code)) =
          .ok ("\n" ++ dec ++ indent_str ind ++ (if a then "async " else "")
               ++ "def " ++ name ++ "(" ++ ps ++ ")" ++ " -> " ++ rs
               ++ ":\n" ++ body ++ "\n")) := by
  refine ⟨?_, ?_, ?_, ?_, ?_, ?_, ?_, ?_, ?_, ?_, ?_, ?_, ?_, ?_, ?_⟩
  · intro d stmts s hs hb
    exact format_block_lines (4 * d) stmts hs s hb
  · intro ind c cs h
    rw [format_statement, h, ok_bind]
  · intro ind first cond block rest cs bs rs hc hb hr
    rw [format_if_chain, hc, ok_bind, hb, ok_bind, hr, ok_bind]
  · intro ind cond_blocks
    rw [format_compound_statement]
  · intro ind cond_blocks b s bs hs hb
    rw [format_compound_statement, hs, ok_bind, hb, ok_bind]
  · intro ind a item iterator for_block items_s its_s fs h1 h2 h3
    rw [format_compound_statement, h1, ok_bind, h2, ok_bind, h3, ok_bind]
  · intro ind a item iterator for_block b items_s its_s fs bs h1 h2 h3 h4
    rw [format_compound_statement, h1, ok_bind, h2, ok_bind, h3, ok_bind, h4, ok_bind]
  · intro ind c blk cs bs hc hb
    rw [format_compound_statement, hc, ok_bind, hb, ok_bind]
  · intro ind c blk b cs bs es hc hb he
    rw [format_compound_statement, hc, ok_bind, hb, ok_bind, he, ok_bind]
  · intro ind contexts block cs bs hne hcs hbs
    obtain ⟨c0, rest, hc⟩ := List.exists_cons_of_ne_nil hne
    subst hc
    rw [format_compound_statement, if_pos (by simp), hcs, ok_bind, hbs, ok_bind]
  · intro ind guard block rest g b r hg hb hr
    rw [format_except_clauses, hg, ok_bind, hb, ok_bind, hr, ok_bind]
  · intro ind guard n block rest g b r hg hb hr
    rw [format_except_clauses, hg, ok_bind, hb, ok_bind, hr, ok_bind]
  · intro ind tb ec le eb fb try_block except_clauses last_except else_block finally_block
      h1 h2 h3 h4 h5
    rw [format_compound_statement, h1, ok_bind, h2, ok_bind,
        try_section ind last_except "except:\n" le h3, ok_bind,
        try_section ind else_block "else:\n" eb h4, ok_bind,
        try_section ind finally_block "finally_block:\n" fb h5, ok_bind]
  · intro ind a decorators name parameters code dec ps body hdec hps hbody
    rw [format_compound_statement, format_funcdef, hdec, ok_bind, hps, ok_bind,
        hbody, ok_bind]
  · intro ind a decorators name parameters r code dec ps rs body hdec hps hrs hbody
    rw [format_compound_statement, format_funcdef, hdec, ok_bind, hps, ok_bind,
        hrs, ok_bind, hbody, ok_bind]

/-- Witness for the amended C6 at concrete inputs: a two-statement block at
depth 2 has its first line indented by exactly 8 spaces, a concrete
while-statement renders its body at indent 4, and a concrete function
definition renders its body at indent 4. -/
theorem indentation_of_simple_blocks_witness :
    leading_spaces "        pass".data = 4 * 2
    ∧ format_compound_statement 0 (.While (.Name "c") [.Pass] Option.none) =
        .ok ("while " ++ "c" ++ ":\n" ++ "    pass\n")
    ∧ format_compound_statement 0
        (.Funcdef (.mk false [] "f" ⟨[], .No, [], Option.none⟩ Option.none [.Pass])) =
        .ok ("\n" ++ "" ++ indent_str 0 ++ (if false then "async " else "")
             ++ "def " ++ "f" ++ "(" ++ "" ++ ")" ++ ":\n" ++ "    pass\n" ++ "\n") := by
  obtain ⟨hA, hDis, hIfStep, hIfN, hIfS, hForN, hForS, hWhN, hWhS, hWith,
    hExcN, hExcS, hTry, hFdN, hFdS⟩ := indentation_of_simple_blocks
  refine ⟨hA 2 [.Pass, .Continue] "        pass\n        continue\n" ?_ ?_
            "        pass".data (by decide),
          hWhN 0 (.Name "c") [.Pass] "c" "    pass\n" (by rw [format_expr]) ?_,
          hFdN 0 false [] "f" ⟨[], .No, [], Option.none⟩ [.Pass] "" "" "    pass\n"
            (by rw [format_decorators]) (by rfl) ?_⟩
  · intro st hst
    rcases List.mem_cons.mp hst with h | h
    · subst h
      exact single_line_pass
    · rcases List.mem_cons.mp h with h2 | h2
      · subst h2
        exact single_line_continue
      · simp at h2
  · simp only [format_block, format_statement, ok_bind]
    rfl
  · simp only [format_block, format_statement, ok_bind]
    rfl
  · simp only [format_block, format_statement, ok_bind]
    rfl

/-- C8: the ArgumentError-to-integer mapping sends KeywordExpression to 1,
PositionalAfterKeyword to 2, StarargsAfterKeyword to 3; the integer-to-error
mapping is a two-sided inverse of it on those codes; and the integer-to-error
conversion hits the programming-error panic (modelled by none) exactly on the
integers outside 1..3. -/
theorem argument_error_code_mapping :
    (∀ e, u32_to_argument_error (argument_error_to_u32 e) = some e)
    ∧ (argument_error_to_u32 .KeywordExpression = 1
       ∧ argument_error_to_u32 .PositionalAfterKeyword = 2
       ∧ argument_error_to_u32 .StarargsAfterKeyword = 3)
    ∧ (∀ (i : Nat) (e : ArgumentError),
        u32_to_argument_error i = some e → argument_error_to_u32 e = i)
    ∧ (∀ i : Nat, u32_to_argument_error i = none ↔ ¬(1 ≤ i ∧ i ≤ 3)) := by
  refine ⟨fun e => by cases e <;> rfl, ⟨rfl, rfl, rfl⟩, ?_, ?_⟩
  · intro i e h
    unfold u32_to_argument_error at h
    split_ifs at h with h1 h2 h3
    · injection h with h
      subst h
      rw [h1]
      rfl
    · injection h with h
      subst h
      rw [h2]
      rfl
    · injection h with h
      subst h
      rw [h3]
      rfl
  · intro i
    unfold u32_to_argument_error
    split_ifs with h1 h2 h3 <;> simp <;> omega

/-- Witness for C8: converting the out-of-range code 7 panics, and the code
of PositionalAfterKeyword round-trips through code 2. -/
theorem argument_error_code_mapping_witness :
    u32_to_argument_error 7 = none
    ∧ argument_error_to_u32 .PositionalAfterKeyword = 2 :=
  ⟨(argument_error_code_mapping.2.2.2 7).mpr (by decide),
   argument_error_code_mapping.2.2.1 2 .PositionalAfterKeyword (by decide)⟩

/-- C9: for a Try statement the renderer emits the try header and block, the
typed except clauses, and then each of the bare-except, else, and finally
sections exactly when the corresponding statement sequence is non-empty; the
finally section's header line is the text finally_block: (not finally:), and
each section's block is rendered one 4-space indent unit deeper. -/
theorem try_finally_header_and_suppression :
    ∀ (ind : Nat) (tb ec le eb fb : String)
      (try_block : List Statement)
      (except_clauses : List (Expression × Option Name × List Statement))
      (last_except else_block finally_block : List Statement),
      format_block (ind + 4) try_block = .ok tb →
      format_except_clauses ind except_clauses = .ok ec →
      format_block (ind + 4) last_except = .ok le →
      format_block (ind + 4) else_block = .ok eb →
      format_block (ind + 4) finally_block = .ok fb →
      format_compound_statement ind
        (.Try (.mk try_block except_clauses last_except else_block finally_block)) =
        .ok ("try:\n" ++ tb ++ ec
             ++ (if last_except.isEmpty then "" else indent_str ind ++ "except:\n" ++ le)
             ++ (if else_block.isEmpty then "" else indent_str ind ++ "else:\n" ++ eb)
             ++ (if finally_block.isEmpty then ""
                 else indent_str ind ++ "finally_block:\n" ++ fb)) := by
  intro ind tb ec le eb fb try_block except_clauses last_except else_block finally_block
    h1 h2 h3 h4 h5
  rw [format_compound_statement, h1, ok_bind, h2, ok_bind,
      try_section ind last_except "except:\n" le h3, ok_bind,
      try_section ind else_block "else:\n" eb h4, ok_bind,
      try_section ind finally_block "finally_block:\n" fb h5, ok_bind]

/-- Witness for C9 at a concrete input: a Try with a non-empty finally
section and empty bare-except and else sections renders the finally_block:
header, its block at indent 4, and no other section headers. -/
theorem try_finally_header_witness :
    format_compound_statement 0 (.Try (.mk [.Pass] [] [] [] [.Break])) =
      .ok "try:\n    pass\nfinally_block:\n    break\n" :=
  try_finally_header_and_suppression 0 "    pass\n" "" "" "" "    break\n"
    [.Pass] [] [] [] [.Break]
    (by simp only [format_block, format_statement, ok_bind]
        rfl)
    (by rw [format_except_clauses])
    (by rw [format_block])
    (by rw [format_block])
    (by simp only [format_block, format_statement, ok_bind]
        rfl)

/-- C10 counterexample: a With statement with one context entry does not
always return text: when a sub-expression is itself unsupported the rendering
fails (with the unsupported-construct panic, after the assertion passed). -/
theorem with_nonempty_context_failure_concrete :
    0 < [((Expression.Yield []), (Option.none : Option Expression))].length
    ∧ format_compound_statement 0 (.With [(.Yield [], Option.none)] [.Pass])
        = .error .unimplemented := by
  refine ⟨by decide, ?_⟩
  simp only [format_compound_statement, format_with_items, format_expr,
    ok_bind, error_bind, List.length_cons]
  rfl

/-- C10 amended: rendering a With statement with an empty context list fails
the runtime assertion (for every body block, before anything of the body is
considered); with at least one context entry the assertion passes, and the
rendering returns normally whenever the context list and the body block
themselves render successfully. -/
theorem with_assert_behavior :
    (∀ (ind : Nat) (block : List Statement),
       format_compound_statement ind (.With [] block) = .error .assertionFailed)
    ∧ (∀ (ind : Nat) (contexts : List (Expression × Option Expression))
         (block : List Statement) (cs bs : String),
        contexts ≠ [] →
        format_with_items true contexts = .ok cs →
        format_block (ind + 4) block = .ok bs →
        format_compound_statement ind (.With contexts block) =
          .ok ("with " ++ cs ++ ":\n" ++ bs)) := by
  constructor
  · intro ind block
    rw [format_compound_statement]
    simp
  · intro ind contexts block cs bs hne hcs hbs
    obtain ⟨c0, rest, hc⟩ := List.exists_cons_of_ne_nil hne
    subst hc
    rw [format_compound_statement, if_pos (by simp), hcs, ok_bind, hbs, ok_bind]

/-- Witness for the amended C10 at a concrete input: one context entry, and
both failure-free sub-renderings, give a normal result. -/
theorem with_assert_behavior_witness :
    format_compound_statement 0 (.With [(.Name "a", Option.none)] [.Pass]) =
      .ok ("with " ++ "a" ++ ":\n" ++ "    pass\n") :=
  with_assert_behavior.2 0 [(.Name "a", Option.none)] [.Pass] "a" "    pass\n"
    (by simp)
    (by simp only [format_with_items, format_expr, ok_bind]
        rfl)
    (by simp only [format_block, format_statement, ok_bind]
        rfl)
